import Mathlib

/-!
Verification of the SMBIOS/DMI structure decoding library (smbios-lib).

The repository sources under verification are the typed wrappers
`SMBiosGroupAssociations` (type 14), `SMBiosElectricalCurrentProbe`
(type 29) and `SMBiosSystemChassisInformation` (type 3).  The core
offset-accessor layer (`FieldCursor`, `StringTable`, `UndefinedStruct`,
`TableWalker`, `StructureTable`) is not part of the provided sources;
it is modelled from the specification (its §4.1–§4.5 and §6 wire
layout), as marked on each definition.

Bytes are modelled as natural numbers below 256 in a `List Nat`; all
machine arithmetic is explicit `% 256` / little-endian sums over `Nat`.
-/

/-- Modelled from the spec: a `Handle` is a 16-bit identifier naming a
structure within one table snapshot (spec §3, source `Handle(u16)`). -/
structure Handle where
  val : Nat
deriving DecidableEq, Repr

/-- Modelled from the spec: a structure `Header` is
`{ type_code: 8-bit, length: 8-bit, handle: 16-bit little-endian }`
occupying the first four bytes of a structure (spec §3 and §6). -/
structure Header where
  type_code : Nat
  length : Nat
  handle : Nat
deriving DecidableEq, Repr

/-- Modelled from the spec: parse the four header bytes at the start of a
buffer — offset 0 type, offset 1 length, offsets 2–3 little-endian
handle; absent when fewer than 4 bytes are available (spec §6,
"Structure wire layout"). -/
def parse_header (b : List Nat) : Option Header :=
  if 4 ≤ b.length then
    some { type_code := b.getD 0 0
           length := b.getD 1 0
           handle := b.getD 2 0 + 256 * b.getD 3 0 }
  else none

/-- Modelled from the spec: encode a header as four bytes in the §6 wire
layout — type, length, then the handle little-endian. -/
def encode_header (t l hd : Nat) : List Nat :=
  [t, l, hd % 256, hd / 256 % 256]

/-- Modelled from the spec: `FieldCursor` byte accessor — the 8-bit value
at offset `o` if `o < len(b)`, else absent (spec §4.1). -/
def get_field_byte (b : List Nat) (o : Nat) : Option Nat :=
  if o < b.length then some (b.getD o 0) else none

/-- Modelled from the spec: `FieldCursor` word accessor — the little-endian
16-bit value at `o` if `o + 2 <= len(b)`, else absent (spec §4.1). -/
def get_field_word (b : List Nat) (o : Nat) : Option Nat :=
  if o + 2 ≤ b.length then
    some (b.getD o 0 + 256 * b.getD (o + 1) 0)
  else none

/-- Modelled from the spec: `FieldCursor` dword accessor — the
little-endian 32-bit value at `o` if `o + 4 <= len(b)`, else absent
(spec §4.1). -/
def get_field_dword (b : List Nat) (o : Nat) : Option Nat :=
  if o + 4 ≤ b.length then
    some (b.getD o 0 + 256 * (b.getD (o + 1) 0 + 256 *
      (b.getD (o + 2) 0 + 256 * b.getD (o + 3) 0)))
  else none

/-- Modelled from the spec: `FieldCursor` qword accessor — the
little-endian 64-bit value at `o` if `o + 8 <= len(b)`, else absent
(spec §4.1). -/
def get_field_qword (b : List Nat) (o : Nat) : Option Nat :=
  if o + 8 ≤ b.length then
    some (b.getD o 0 + 256 * (b.getD (o + 1) 0 + 256 *
      (b.getD (o + 2) 0 + 256 * (b.getD (o + 3) 0 + 256 *
      (b.getD (o + 4) 0 + 256 * (b.getD (o + 5) 0 + 256 *
      (b.getD (o + 6) 0 + 256 * b.getD (o + 7) 0)))))))
  else none

/-- Modelled from the spec: `FieldCursor` handle accessor — a `Handle`
built from the 16-bit little-endian value at `o`, with the same absence
rule as the word accessor (spec §4.1). -/
def get_field_handle (b : List Nat) (o : Nat) : Option Handle :=
  (get_field_word b o).map Handle.mk

/-- Modelled from the spec: scan a byte list for the first occurrence of
two consecutive null bytes, returning its index; if none is found the
list length is returned, treating the buffer end as an implicit
terminator (spec §4.3 step 3). -/
def term_scan : List Nat → Nat
  | 0 :: 0 :: _ => 0
  | _ :: rest => term_scan rest + 1
  | [] => 0

/-- Modelled from the spec: the structure `length` header field — the byte
count of header plus formatted area (spec §3). -/
def header_length (b : List Nat) : Nat := b.getD 1 0

/-- Modelled from the spec: the `StringTable` input region — the bytes
immediately following the formatted area, up to but not including the
structure end terminator (spec §4.2). -/
def string_area (b : List Nat) : List Nat :=
  let rest := b.drop (header_length b)
  rest.take (term_scan rest)

/-- Modelled from the spec: split a byte region on null bytes; each
segment becomes one string-table entry (spec §4.2). -/
def splitOnNullAux : List Nat → List Nat → List (List Nat)
  | [], acc => [acc.reverse]
  | 0 :: rest, acc => acc.reverse :: splitOnNullAux rest []
  | c :: rest, acc => splitOnNullAux rest (c :: acc)

/-- Modelled from the spec: the `StringTable` of a structure — the
null-separated entries of its string area, 1-indexed; a structure with
zero strings has an empty string table (spec §4.2). -/
def structure_strings (b : List Nat) : List (List Nat) :=
  let area := string_area b
  if area.isEmpty then [] else splitOnNullAux area []

/-- Modelled from the spec: `FieldCursor` string accessor — reads the
8-bit string-table index at `o`; index 0 means no string; index `n`
(1-based) resolves via the string table; an index beyond the available
string count is absent (spec §4.1). -/
def get_field_string (b : List Nat) (o : Nat) : Option (List Nat) :=
  (get_field_byte b o).bind fun idx =>
    if idx = 0 then none else (structure_strings b)[idx - 1]?

/-- Modelled from the spec: `UndefinedStruct` (a.k.a. `SMBiosStructParts`)
owns one structure's full byte span — header, formatted area and string
table — and exposes the offset-accessor contract (spec §2, §3). -/
structure UndefinedStruct where
  data : List Nat
deriving DecidableEq, Repr

/-- Earlier revisions of the library name the same owner type
`SMBiosStructParts`; the two are identified here. -/
abbrev SMBiosStructParts := UndefinedStruct

/-- Source `src/structs/types/group_associations.rs`: the Group
Associations structure (type 14) wraps one `SMBiosStructParts`. -/
structure SMBiosGroupAssociations where
  parts : SMBiosStructParts
deriving DecidableEq, Repr

/-- Source: `group_name` reads the byte field at offset 0x4. -/
def SMBiosGroupAssociations.group_name (s : SMBiosGroupAssociations) : Option Nat :=
  get_field_byte s.parts.data 0x4

/-- Source: `item_type` reads the byte field at offset 0x5. -/
def SMBiosGroupAssociations.item_type (s : SMBiosGroupAssociations) : Option Nat :=
  get_field_byte s.parts.data 0x5

/-- Source: `item_handle` reads the handle field at offset 0x6. -/
def SMBiosGroupAssociations.item_handle (s : SMBiosGroupAssociations) : Option Handle :=
  get_field_handle s.parts.data 0x6

/-- Source `src/structs/types/electrical_current_probe.rs`: probe status
enumeration (`CurrentProbeStatus`). -/
inductive CurrentProbeStatus
  | Other
  | Unknown
  | OK
  | NonCritical
  | Critical
  | NonRecoverable
  | None
deriving DecidableEq, Repr

/-- Source: probe location enumeration (`CurrentProbeLocation`). -/
inductive CurrentProbeLocation
  | Other
  | Unknown
  | Processor
  | Disk
  | PeripheralBay
  | SystemManagementModule
  | Motherboard
  | MemoryModule
  | ProcessorModule
  | PowerUnit
  | AddInCard
  | None
deriving DecidableEq, Repr

/-- Source: `CurrentProbeLocationAndStatus` keeps the raw byte together
with the decoded status and location. -/
structure CurrentProbeLocationAndStatus where
  raw : Nat
  status : CurrentProbeStatus
  location : CurrentProbeLocation
deriving DecidableEq, Repr

/-- Source: `impl From<u8> for CurrentProbeLocationAndStatus` — status
from the top three bits (`raw & 0b111_00000`), location from the low
five bits (`raw & 0b000_11111`), raw preserved.  Named `fromU8` since
`from` is a reserved word in Lean. -/
def CurrentProbeLocationAndStatus.fromU8 (raw : Nat) : CurrentProbeLocationAndStatus :=
  { raw := raw
    status :=
      match raw &&& 0b11100000 with
      | 0b00100000 => CurrentProbeStatus.Other
      | 0b01000000 => CurrentProbeStatus.Unknown
      | 0b01100000 => CurrentProbeStatus.OK
      | 0b10000000 => CurrentProbeStatus.NonCritical
      | 0b10100000 => CurrentProbeStatus.Critical
      | 0b11000000 => CurrentProbeStatus.NonRecoverable
      | _ => CurrentProbeStatus.None
    location :=
      match raw &&& 0b00011111 with
      | 0b00000001 => CurrentProbeLocation.Other
      | 0b00000010 => CurrentProbeLocation.Unknown
      | 0b00000011 => CurrentProbeLocation.Processor
      | 0b00000100 => CurrentProbeLocation.Disk
      | 0b00000101 => CurrentProbeLocation.PeripheralBay
      | 0b00000110 => CurrentProbeLocation.SystemManagementModule
      | 0b00000111 => CurrentProbeLocation.Motherboard
      | 0b00001000 => CurrentProbeLocation.MemoryModule
      | 0b00001001 => CurrentProbeLocation.ProcessorModule
      | 0b00001010 => CurrentProbeLocation.PowerUnit
      | 0b00001011 => CurrentProbeLocation.AddInCard
      | _ => CurrentProbeLocation.None }

/-- Source: the Electrical Current Probe structure (type 29) wraps one
`UndefinedStruct`. -/
structure SMBiosElectricalCurrentProbe where
  parts : UndefinedStruct
deriving DecidableEq, Repr

/-- Source: `description` reads the string field at offset 0x04. -/
def SMBiosElectricalCurrentProbe.description (s : SMBiosElectricalCurrentProbe) : Option (List Nat) :=
  get_field_string s.parts.data 0x04

/-- Source: `location_and_status` reads the byte at offset 0x05 and maps
it through `CurrentProbeLocationAndStatus::from`. -/
def SMBiosElectricalCurrentProbe.location_and_status (s : SMBiosElectricalCurrentProbe) : Option CurrentProbeLocationAndStatus :=
  (get_field_byte s.parts.data 0x05).bind fun raw =>
    some (CurrentProbeLocationAndStatus.fromU8 raw)

/-- Source: `maximum_value` reads the word field at offset 0x06. -/
def SMBiosElectricalCurrentProbe.maximum_value (s : SMBiosElectricalCurrentProbe) : Option Nat :=
  get_field_word s.parts.data 0x06

/-- Source: `oem_defined` reads the dword field at offset 0x10. -/
def SMBiosElectricalCurrentProbe.oem_defined (s : SMBiosElectricalCurrentProbe) : Option Nat :=
  get_field_dword s.parts.data 0x10

/-- Source `src/structs/system_chassis_information.rs`: the System
Chassis Information structure (type 3). -/
structure SMBiosSystemChassisInformation where
  parts : SMBiosStructParts
deriving DecidableEq, Repr

/-- Source: `manufacturer` reads the string field at offset 0x04. -/
def SMBiosSystemChassisInformation.manufacturer (s : SMBiosSystemChassisInformation) : Option (List Nat) :=
  get_field_string s.parts.data 0x04

/-- Source: `oem_defined` reads the dword field at offset 0x0D. -/
def SMBiosSystemChassisInformation.oem_defined (s : SMBiosSystemChassisInformation) : Option Nat :=
  get_field_dword s.parts.data 0x0D

/-- Source: `sku_number` reads the string field at offset 0x15. -/
def SMBiosSystemChassisInformation.sku_number (s : SMBiosSystemChassisInformation) : Option (List Nat) :=
  get_field_string s.parts.data 0x15

/-- Modelled from the spec: one step of TableWalker — the relative end
offset of the structure starting a buffer: formatted area of
`header_length` bytes, then the string region up to and including the
two-null terminator; a missing terminator is implicit at the buffer end
(spec §4.3 steps 2–4). -/
def struct_end (buf : List Nat) : Nat :=
  let len := header_length buf
  min (len + term_scan (buf.drop len) + 2) buf.length

/-- Modelled from the spec: the TableWalker state machine (spec §4.3) —
walk the table buffer, emitting one `UndefinedStruct` per structure;
stop on fewer than 4 remaining bytes, on a malformed `length < 4`, on a
truncated formatted area, or on the reserved end-of-table type code 127
(the terminator structure is not emitted).  Fuel bounds the recursion
by the buffer length; each emitted structure consumes at least one
byte. -/
def walk_aux : Nat → List Nat → List UndefinedStruct
  | 0, _ => []
  | fuel + 1, buf =>
    if buf.length < 4 then []
    else if header_length buf < 4 then []
    else if buf.length < header_length buf then []
    else if buf.getD 0 0 = 127 then []
    else
      let e := struct_end buf
      UndefinedStruct.mk (buf.take e) :: walk_aux fuel (buf.drop e)

/-- Modelled from the spec: `StructureTable` — the ordered sequence of
structures produced by TableWalker for one byte buffer (spec §4.5). -/
structure StructureTable where
  structures : List UndefinedStruct
deriving DecidableEq, Repr

/-- Modelled from the spec: build a `StructureTable` from a table byte
buffer by running TableWalker over it (spec §4.5 "Build"). -/
def build_table (b : List Nat) : StructureTable :=
  StructureTable.mk (walk_aux b.length b)

/-- Modelled from the spec: the handle encoded in a structure's header
bytes (offsets 2–3, little-endian). -/
def struct_handle (s : UndefinedStruct) : Nat :=
  s.data.getD 2 0 + 256 * s.data.getD 3 0

/-- Modelled from the spec: `by_handle(h)` — the structure with that
handle, absent if none; on a duplicate handle the first occurrence wins
(spec §4.5). -/
def StructureTable.by_handle (t : StructureTable) (h : Nat) : Option UndefinedStruct :=
  t.structures.find? fun s => struct_handle s == h

/-- Modelled from the spec: `by_type(code)` — the ordered sequence of
structures with that type code, in table order (spec §4.5). -/
def StructureTable.by_type (t : StructureTable) (c : Nat) : List UndefinedStruct :=
  t.structures.filter fun s => s.data.getD 0 0 == c

/-- Little-endian interpretation of the `w` bytes starting at offset `o`,
written independently of the accessors as a recursive base-256 sum; used
to state the multi-byte accessor claims. -/
def le_value (b : List Nat) (o : Nat) : Nat → Nat
  | 0 => 0
  | w + 1 => b.getD o 0 + 256 * le_value b (o + 1) w

/-- Test fixture of `group_associations.rs::tests::unit_test`: a type-14
structure with handle 0x005F and one string. -/
def groupFixture : List Nat :=
  [0x0E, 0x08, 0x5F, 0x00, 0x01, 0xDD, 0x5B, 0x00, 0x46, 0x69, 0x72,
   0x6D, 0x77, 0x61, 0x72, 0x65, 0x20, 0x56, 0x65, 0x72, 0x73, 0x69,
   0x6F, 0x6E, 0x20, 0x49, 0x6E, 0x66, 0x6F, 0x00, 0x00]

/-- Test fixture of `electrical_current_probe.rs::tests::unit_test`: a
type-29 structure with one string "ABC". -/
def probeFixture : List Nat :=
  [0x1D, 0x16, 0x33, 0x00, 0x01, 0x67, 0x00, 0x80, 0x00, 0x80, 0x00,
   0x80, 0x00, 0x80, 0x00, 0x80, 0x00, 0x00, 0x00, 0x00, 0x00, 0x80,
   0x41, 0x42, 0x43, 0x00, 0x00]

/-- Test fixture of `system_chassis_information.rs::tests::unit_test`: a
type-3 structure with five strings. -/
def chassisFixture : List Nat :=
  [0x03, 0x16, 0x03, 0x00, 0x01, 0x03, 0x02, 0x03, 0x04, 0x03, 0x03,
   0x03, 0x03, 0x00, 0x00, 0x00, 0x00, 0x00, 0x01, 0x00, 0x03, 0x05,
   0x4C, 0x45, 0x4E, 0x4F, 0x56, 0x4F, 0x00, 0x4E, 0x6F, 0x6E, 0x65,
   0x00, 0x4D, 0x4A, 0x30, 0x36, 0x55, 0x52, 0x44, 0x5A, 0x00, 0x34,
   0x30, 0x38, 0x39, 0x39, 0x38, 0x35, 0x00, 0x44, 0x65, 0x66, 0x61,
   0x75, 0x6C, 0x74, 0x20, 0x73, 0x74, 0x72, 0x69, 0x6E, 0x67, 0x00,
   0x00]

/-- A zero-string structure: minimal header (length 4) followed only by
the two terminating null bytes (spec §4.2 edge case), with its single
header field at offset 1 reading 4 and a nonzero byte at offset 0. -/
def noStringFixture : List Nat :=
  [0x01, 0x04, 0x02, 0x00, 0x00, 0x00]

set_option maxRecDepth 100000

/-- Claim C2: the Group Associations fixture whose bytes begin with
header [0x0E, 0x08, 0x5F, 0x00, 0x01, 0xDD] parses to a header with
type_code 14, length 8 and handle 0x005F; group_name (byte field at
offset 4) returns 1 and item_type (byte field at offset 5) returns
221. -/
theorem c2_group_associations_fixture :
    parse_header groupFixture = some (Header.mk 14 8 0x5F) ∧
    SMBiosGroupAssociations.group_name ⟨⟨groupFixture⟩⟩ = some 1 ∧
    SMBiosGroupAssociations.item_type ⟨⟨groupFixture⟩⟩ = some 221 := by
  decide

/-- Claim C8: for every byte value, fromU8 preserves the raw byte, the
status is determined solely by the top three bits (32 Other, 64
Unknown, 96 OK, 128 NonCritical, 160 Critical, 192 NonRecoverable,
anything else None) and the location solely by the low five bits (1
Other, 2 Unknown, 3 Processor, 4 Disk, 5 PeripheralBay, 6
SystemManagementModule, 7 Motherboard, 8 MemoryModule, 9
ProcessorModule, 10 PowerUnit, 11 AddInCard, anything else None). -/
theorem c8_location_and_status_decoding :
    ∀ r : Fin 256,
      CurrentProbeLocationAndStatus.fromU8 r.val =
        { raw := r.val
          status :=
            if r.val &&& 224 = 32 then CurrentProbeStatus.Other
            else if r.val &&& 224 = 64 then CurrentProbeStatus.Unknown
            else if r.val &&& 224 = 96 then CurrentProbeStatus.OK
            else if r.val &&& 224 = 128 then CurrentProbeStatus.NonCritical
            else if r.val &&& 224 = 160 then CurrentProbeStatus.Critical
            else if r.val &&& 224 = 192 then CurrentProbeStatus.NonRecoverable
            else CurrentProbeStatus.None
          location :=
            if r.val &&& 31 = 1 then CurrentProbeLocation.Other
            else if r.val &&& 31 = 2 then CurrentProbeLocation.Unknown
            else if r.val &&& 31 = 3 then CurrentProbeLocation.Processor
            else if r.val &&& 31 = 4 then CurrentProbeLocation.Disk
            else if r.val &&& 31 = 5 then CurrentProbeLocation.PeripheralBay
            else if r.val &&& 31 = 6 then CurrentProbeLocation.SystemManagementModule
            else if r.val &&& 31 = 7 then CurrentProbeLocation.Motherboard
            else if r.val &&& 31 = 8 then CurrentProbeLocation.MemoryModule
            else if r.val &&& 31 = 9 then CurrentProbeLocation.ProcessorModule
            else if r.val &&& 31 = 10 then CurrentProbeLocation.PowerUnit
            else if r.val &&& 31 = 11 then CurrentProbeLocation.AddInCard
            else CurrentProbeLocation.None } := by
  decide

/-- Claim C9: location_and_status is Some exactly when the byte at offset
0x05 is Some, and fromU8 is total with unmapped status codes (top bits
all zero or all one) and unmapped location codes (low bits 0 or 12–31)
mapping to the None variants. -/
theorem c9_location_and_status_total :
    (∀ s : UndefinedStruct,
      (SMBiosElectricalCurrentProbe.location_and_status ⟨s⟩).isSome =
        (get_field_byte s.data 0x05).isSome) ∧
    (∀ r : Fin 256,
      ((CurrentProbeLocationAndStatus.fromU8 r.val).status =
          CurrentProbeStatus.None ↔
        (r.val &&& 224 = 0 ∨ r.val &&& 224 = 224)) ∧
      ((CurrentProbeLocationAndStatus.fromU8 r.val).location =
          CurrentProbeLocation.None ↔
        (r.val &&& 31 = 0 ∨ 12 ≤ r.val &&& 31))) := by
  constructor
  · intro s
    cases h : get_field_byte s.data 0x05 <;>
      simp [SMBiosElectricalCurrentProbe.location_and_status, h]
  · decide

/-- Claim C10: fromU8 is injective up to the derived equality — the raw
byte is preserved in the raw field, so two decoded values are equal
exactly when the input bytes are. -/
theorem c10_fromU8_injective :
    ∀ a b : Fin 256,
      (CurrentProbeLocationAndStatus.fromU8 a.val =
        CurrentProbeLocationAndStatus.fromU8 b.val) ↔ a = b := by
  intro a b
  constructor
  · intro h
    exact Fin.ext (congrArg CurrentProbeLocationAndStatus.raw h)
  · intro h
    rw [h]

/-- Claim C6: encode-then-decode round trip of the header — for any 8-bit
type and length and 16-bit handle, parsing the encoded four header
bytes (followed by any rest) recovers exactly the encoded values. -/
theorem c6_header_round_trip (t l hd : Nat) (rest : List Nat)
    (_ht : t < 256) (_hl : l < 256) (hh : hd < 65536) :
    parse_header (encode_header t l hd ++ rest) =
      some (Header.mk t l hd) := by
  have e : encode_header t l hd ++ rest =
      t :: l :: (hd % 256) :: (hd / 256 % 256) :: rest := rfl
  have hmod : hd % 256 + 256 * (hd / 256 % 256) = hd := by omega
  rw [e]
  unfold parse_header
  rw [if_pos (by simp)]
  simp only [List.getD_cons_succ, List.getD_cons_zero, hmod]

/-- Witness for C6 at a concrete header. -/
theorem c6_header_round_trip_witness :
    parse_header (encode_header 14 8 0x5F ++ [0x01]) =
      some (Header.mk 14 8 0x5F) :=
  c6_header_round_trip 14 8 0x5F [0x01] (by decide) (by decide) (by decide)

/-- Claim C7: decoding is deterministic — decoding the same byte buffer
twice yields StructureTables with identical handle and type indexes. -/
theorem c7_decode_deterministic (b1 b2 : List Nat) (h : b1 = b2) :
    (∀ hd, (build_table b1).by_handle hd = (build_table b2).by_handle hd) ∧
    (∀ c, (build_table b1).by_type c = (build_table b2).by_type c) := by
  subst h
  exact ⟨fun _ => rfl, fun _ => rfl⟩

/-- Witness for C7 at a concrete buffer. -/
theorem c7_decode_deterministic_witness :
    (build_table probeFixture).by_handle 0x33 =
      (build_table probeFixture).by_handle 0x33 ∧
    (build_table probeFixture).by_type 29 =
      (build_table probeFixture).by_type 29 :=
  ⟨(c7_decode_deterministic probeFixture probeFixture rfl).1 0x33,
   (c7_decode_deterministic probeFixture probeFixture rfl).2 29⟩

/-- Claim C1: every field accessor is total and non-panicking — an
out-of-range offset yields absent for the byte, word, dword and handle
accessors, and a zero or out-of-range string index yields absent for
the string accessor. -/
theorem c1_accessors_total (b : List Nat) (o : Nat) :
    (b.length ≤ o → get_field_byte b o = none) ∧
    (b.length < o + 2 → get_field_word b o = none) ∧
    (b.length < o + 4 → get_field_dword b o = none) ∧
    (b.length < o + 2 → get_field_handle b o = none) ∧
    (get_field_byte b o = some 0 → get_field_string b o = none) ∧
    (∀ n, get_field_byte b o = some n →
      (structure_strings b).length < n → get_field_string b o = none) := by
  refine ⟨?_, ?_, ?_, ?_, ?_, ?_⟩
  · intro h
    have hn : ¬ o < b.length := by omega
    simp [get_field_byte, hn]
  · intro h
    have hn : ¬ (o + 2 ≤ b.length) := by omega
    simp [get_field_word, hn]
  · intro h
    have hn : ¬ (o + 4 ≤ b.length) := by omega
    simp [get_field_dword, hn]
  · intro h
    have hn : ¬ (o + 2 ≤ b.length) := by omega
    simp [get_field_handle, get_field_word, hn]
  · intro h
    simp [get_field_string, h]
  · intro n h hlt
    rcases Nat.eq_zero_or_pos n with h0 | h0
    · simp [get_field_string, h, h0]
    · have hne : ¬ n = 0 := by omega
      simp [get_field_string, h, hne]
      omega

/-- Witness for C1 across each accessor at concrete inputs. -/
theorem c1_accessors_total_witness :
    get_field_byte [1, 2] 5 = none ∧
    get_field_word [1, 2] 1 = none ∧
    get_field_dword chassisFixture 64 = none ∧
    get_field_handle [1, 2] 1 = none ∧
    get_field_string probeFixture 0x10 = none ∧
    get_field_string noStringFixture 0 = none := by
  refine ⟨?_, ?_, ?_, ?_, ?_, ?_⟩
  · exact (c1_accessors_total [1, 2] 5).1 (by decide)
  · exact (c1_accessors_total [1, 2] 1).2.1 (by decide)
  · exact (c1_accessors_total chassisFixture 64).2.2.1 (by decide)
  · exact (c1_accessors_total [1, 2] 1).2.2.2.1 (by decide)
  · exact (c1_accessors_total probeFixture 0x10).2.2.2.2.1 (by decide)
  · exact (c1_accessors_total noStringFixture 0).2.2.2.2.2 1 (by decide) (by decide)

/-- Claim C3: the string accessor reads the 8-bit index at the offset;
index 0 is absent, index n with at least n strings available yields the
n-th (1-based) string, and an index beyond the available string count
is absent. -/
theorem c3_string_accessor (b : List Nat) (o n : Nat)
    (h : get_field_byte b o = some n) :
    (n = 0 → get_field_string b o = none) ∧
    (n ≠ 0 → ∀ hn : n - 1 < (structure_strings b).length,
      get_field_string b o =
        some ((structure_strings b).get ⟨n - 1, hn⟩)) ∧
    ((structure_strings b).length < n → get_field_string b o = none) := by
  refine ⟨?_, ?_, ?_⟩
  · intro h0
    simp [get_field_string, h, h0]
  · intro h0 hn
    simp [get_field_string, h, h0]
  · intro hlt
    rcases Nat.eq_zero_or_pos n with h0 | h0
    · simp [get_field_string, h, h0]
    · have hne : ¬ n = 0 := by omega
      simp [get_field_string, h, hne]
      omega

/-- Witness for C3: index 2 on the five-string chassis fixture resolves
to its second string, index 0 is absent, and index 1 on a zero-string
structure is absent. -/
theorem c3_string_accessor_witness :
    get_field_string chassisFixture 0x06 =
      some ((structure_strings chassisFixture).get ⟨1, by decide⟩) ∧
    get_field_string chassisFixture 0x0D = none ∧
    get_field_string noStringFixture 0 = none := by
  refine ⟨?_, ?_, ?_⟩
  · exact (c3_string_accessor chassisFixture 0x06 2 (by decide)).2.1
      (by decide) (by decide)
  · exact (c3_string_accessor chassisFixture 0x0D 0 (by decide)).1 rfl
  · exact (c3_string_accessor noStringFixture 0 1 (by decide)).2.2 (by decide)

/-- Claim C4: the word, dword and qword accessors return the
little-endian 16/32/64-bit value formed from the 2/4/8 bytes starting
at the offset when they fit in the buffer, and absent otherwise. -/
theorem c4_multibyte_little_endian (b : List Nat) (o : Nat) :
    (o + 2 ≤ b.length → get_field_word b o = some (le_value b o 2)) ∧
    (b.length < o + 2 → get_field_word b o = none) ∧
    (o + 4 ≤ b.length → get_field_dword b o = some (le_value b o 4)) ∧
    (b.length < o + 4 → get_field_dword b o = none) ∧
    (o + 8 ≤ b.length → get_field_qword b o = some (le_value b o 8)) ∧
    (b.length < o + 8 → get_field_qword b o = none) := by
  refine ⟨?_, ?_, ?_, ?_, ?_, ?_⟩ <;> intro h
  · simp [get_field_word, le_value, h]
  · have hn : ¬ (o + 2 ≤ b.length) := by omega
    simp [get_field_word, hn]
  · simp [get_field_dword, le_value, h]
  · have hn : ¬ (o + 4 ≤ b.length) := by omega
    simp [get_field_dword, hn]
  · simp [get_field_qword, le_value, h]
  · have hn : ¬ (o + 8 ≤ b.length) := by omega
    simp [get_field_qword, hn]

/-- Witness for C4: the probe fixture holds bytes 0x00, 0x80 at offset 6,
so maximum_value reads the word 32768; the dword at offset 0x10 reads
0; an out-of-range word read is absent. -/
theorem c4_multibyte_little_endian_witness :
    get_field_word probeFixture 6 = some 32768 ∧
    get_field_dword probeFixture 0x10 = some 0 ∧
    get_field_word probeFixture 26 = none := by
  refine ⟨?_, ?_, ?_⟩
  · have h := (c4_multibyte_little_endian probeFixture 6).1 (by decide)
    have e : le_value probeFixture 6 2 = 32768 := by decide
    rw [e] at h
    exact h
  · have h := (c4_multibyte_little_endian probeFixture 0x10).2.2.1 (by decide)
    have e : le_value probeFixture 0x10 4 = 0 := by decide
    rw [e] at h
    exact h
  · exact (c4_multibyte_little_endian probeFixture 26).2.1 (by decide)

/-- Claim C5: the handle accessor returns a Handle built from the 16-bit
little-endian value at the offset when two bytes fit, and absent
otherwise, mirroring the word accessor's absence rule. -/
theorem c5_handle_accessor (b : List Nat) (o : Nat) :
    (o + 2 ≤ b.length →
      get_field_handle b o = some (Handle.mk (le_value b o 2))) ∧
    (b.length < o + 2 → get_field_handle b o = none) := by
  constructor <;> intro h
  · simp [get_field_handle, get_field_word, le_value, h]
  · have hn : ¬ (o + 2 ≤ b.length) := by omega
    simp [get_field_handle, get_field_word, hn]

/-- Witness for C5: item_handle on the Group Associations fixture, whose
bytes at offset 6 are 0x5B, 0x00, returns Handle 0x005B; a read past the
end is absent. -/
theorem c5_handle_accessor_witness :
    SMBiosGroupAssociations.item_handle ⟨⟨groupFixture⟩⟩ =
      some (Handle.mk 0x5B) ∧
    get_field_handle [1, 2] 1 = none := by
  constructor
  · have h := (c5_handle_accessor groupFixture 6).1 (by decide)
    have e : le_value groupFixture 6 2 = 0x5B := by decide
    rw [e] at h
    exact h
  · exact (c5_handle_accessor [1, 2] 1).2 (by decide)
